import Mathlib

/-!
Shallow embedding of `src/src/lib.rs` (crate `ruby`): the `Vertex` data
model (`Vertex::new`, `Vertex::quad`), the surface-format selection
performed in `State::new`, and the `App` window-event handler
(`App::window_event`), together with theorems settling the specification
claims about them.

Scalar coordinates are `f32` in the source; the claims under study are
structural (list lengths, field ordering, which expression each field
holds), so the embedding is parametric in the scalar type `α`, requiring
only the algebraic operations the source code uses (`+`, the literals
`0.0` and `1.0`). Any model of `f32` arithmetic instantiates these
theorems; witnesses instantiate `α := ℚ`.
-/

deriving instance DecidableEq for Except

namespace Ruby

/-- Embeds `struct Vertex { position: [f32;2], color: [f32;4], uv: [f32;2] }`
(`src/src/lib.rs` lines 66-72). -/
structure Vertex (α : Type) where
  position : α × α
  color : α × α × α × α
  uv : α × α
deriving DecidableEq, Repr

/-- Embeds `Vertex::new(x, y, color)` (`src/src/lib.rs` lines 76-82):
position `[x, y]`, the given color, uv hard-coded to `[1.0, 1.0]`. -/
def Vertex.new {α : Type} [One α] (x y : α) (color : α × α × α × α) : Vertex α :=
  { position := (x, y), color := color, uv := (1, 1) }

/-- Embeds `Vertex::quad(width, height, x, y)` (`src/src/lib.rs` lines
100-110): six vertices, each built with `Vertex::new` and the color
literal `[0.0, 0.0, 0.0, 1.0]`, returned as
`vec![vertex1, ..., vertex6]`. -/
def Vertex.quad {α : Type} [Add α] [Zero α] [One α]
    (width height x y : α) : List (Vertex α) :=
  let vertex1 := Vertex.new x y (0, 0, 0, 1)
  let vertex2 := Vertex.new (x + width) y (0, 0, 0, 1)
  let vertex3 := Vertex.new x (y + height) (0, 0, 0, 1)
  let vertex4 := Vertex.new (x + width) y (0, 0, 0, 1)
  let vertex5 := Vertex.new x (y + height) (0, 0, 0, 1)
  let vertex6 := Vertex.new (x + width) (y + height) (0, 0, 0, 1)
  [vertex1, vertex2, vertex3, vertex4, vertex5, vertex6]

/-- A concrete fragment of `wgpu::TextureFormat` with its `is_srgb`
classification, used to instantiate the format-selection theorems on
decidable inputs. -/
inductive TextureFormat where
  | rgba8Unorm
  | rgba8UnormSrgb
  | bgra8Unorm
  | bgra8UnormSrgb
  | rgba16Float
deriving DecidableEq, Repr

/-- `wgpu::TextureFormat::is_srgb` restricted to the fragment above: the
`-Srgb` suffixed formats are sRGB, the others are not. -/
def TextureFormat.isSrgb : TextureFormat → Bool
  | .rgba8UnormSrgb => true
  | .bgra8UnormSrgb => true
  | _ => false

/-- Embeds the surface-format selection in `State::new` (`src/src/lib.rs`
lines 144-148):
`caps.formats.iter().find(|f| f.is_srgb()).copied().unwrap_or(caps.formats[0])`.
Parametric in the format type and its sRGB test; `formats ≠ []` reflects
that `caps.formats[0]` indexes the capability list. -/
def chooseFormat {Fmt : Type} (isSrgbTest : Fmt → Bool)
    (formats : List Fmt) (h : formats ≠ []) : Fmt :=
  (formats.find? isSrgbTest).getD (formats.head h)

/-- Events reaching `App::window_event`: the two arms the source matches on
(`CloseRequested`, `RedrawRequested`) and `other` for the wildcard arm
covering every remaining `winit::event::WindowEvent` variant. -/
inductive WEvent where
  | closeRequested
  | redrawRequested
  | other
deriving DecidableEq, Repr

/-- Observable calls the handler makes on the event loop, the window, or —
in the specified-but-unimplemented design — the frame pipeline. The source
handler only ever emits `exitLoop` (`event_loop.exit()`) and
`prePresentNotify` (`window.pre_present_notify()`); the remaining
constructors (`build`, `layoutPass`, `draw`, `present`) name the pipeline
steps the specification talks about, so that their absence is statable. -/
inductive Effect where
  | exitLoop
  | prePresentNotify
  | build
  | layoutPass
  | draw
  | present
deriving DecidableEq, Repr

/-- The OS window held by the shell, opaque in this embedding. -/
structure Window where
deriving DecidableEq, Repr

/-- Embeds `struct App { window: Option<Window> }` (`src/src/lib.rs`
lines 18-21). `App` holds no surface context: `State` is a separate struct
never stored in `App`. -/
structure App where
  window : Option Window
deriving DecidableEq, Repr

/-- Embeds `App::window_event` (`src/src/lib.rs` lines 45-62). The handler
first evaluates `self.window.as_ref().expect("No window present")` — a
panic, modelled as `Except.error`, whenever `window` is `None` — and then
matches the event: `CloseRequested` calls `event_loop.exit()`,
`RedrawRequested` calls `window.pre_present_notify()`, anything else does
nothing. The handler never mutates `self`, so the resulting `App` is the
input `App`. -/
def App.window_event (app : App) (event : WEvent) :
    Except String (App × List Effect) :=
  match app.window with
  | none => .error "No window present"
  | some _window =>
    match event with
    | .closeRequested => .ok (app, [.exitLoop])
    | .redrawRequested => .ok (app, [.prePresentNotify])
    | .other => .ok (app, [])

/-- The effects produced by a handler invocation (none when it panicked). -/
def handlerEffects (r : Except String (App × List Effect)) : List Effect :=
  match r with
  | .ok (_, effects) => effects
  | .error _ => []

end Ruby

namespace Ruby

/-- C1: `Vertex::quad` returns exactly 6 vertices; the first vertex's
position is `(x, y)` and the sixth's is `(x + width, y + height)`. -/
theorem quad_length_endpoints {α : Type} [Add α] [Zero α] [One α]
    (width height x y : α) :
    (Vertex.quad width height x y).length = 6 ∧
    (Vertex.quad width height x y).head?.map Vertex.position = some (x, y) ∧
    (Vertex.quad width height x y).getLast?.map Vertex.position
      = some (x + width, y + height) := by
  refine ⟨rfl, rfl, rfl⟩

/-- C2: the six vertices of `Vertex::quad` have positions, in exact order:
top-left, top-right, bottom-left, top-right, bottom-left, bottom-right —
two triangles sharing the top-right/bottom-left diagonal. -/
theorem quad_position_order {α : Type} [Add α] [Zero α] [One α]
    (width height x y : α) :
    (Vertex.quad width height x y).map Vertex.position
      = [(x, y), (x + width, y), (x, y + height),
         (x + width, y), (x, y + height), (x + width, y + height)] := by
  rfl

/-- C3: for degenerate inputs (`width ≤ 0` or `height ≤ 0`, zero and
negative values included) `Vertex.quad` still returns exactly 6 vertices;
being a total function it cannot fail or panic. -/
theorem quad_degenerate (width height x y : ℚ)
    (_hdeg : width ≤ 0 ∨ height ≤ 0) :
    (Vertex.quad width height x y).length = 6 := by
  rfl

/-- Witness for C3: the degenerate input `width = -3, height = 0` satisfies
the hypothesis and yields 6 vertices. -/
theorem quad_degenerate_witness :
    (Vertex.quad (-3 : ℚ) 0 1 2).length = 6 :=
  quad_degenerate (-3) 0 1 2 (Or.inl (by norm_num))

/-- C5: `Vertex::quad` is deterministic — two calls with identical
arguments return identical vertex lists. -/
theorem quad_deterministic {α : Type} [Add α] [Zero α] [One α]
    (width height x y width' height' x' y' : α)
    (hw : width = width') (hh : height = height')
    (hx : x = x') (hy : y = y') :
    Vertex.quad width height x y = Vertex.quad width' height' x' y' := by
  subst hw hh hx hy
  rfl

/-- Witness for C5: two calls at the concrete input `(1, 2, 3, 4)` agree. -/
theorem quad_deterministic_witness :
    Vertex.quad (1 : ℚ) 2 3 4 = Vertex.quad (1 : ℚ) 2 3 4 :=
  quad_deterministic 1 2 3 4 1 2 3 4 rfl rfl rfl rfl

/-- C6: `Vertex::new x y color` has position `(x, y)`, the given color, and
uv `(1, 1)`; it is total, so every input is accepted unvalidated. -/
theorem new_fields {α : Type} [One α] (x y : α) (color : α × α × α × α) :
    (Vertex.new x y color).position = (x, y) ∧
    (Vertex.new x y color).color = color ∧
    (Vertex.new x y color).uv = (1, 1) := by
  exact ⟨rfl, rfl, rfl⟩

/-- C4: surface-format selection in `State::new` — if the capability list
contains an sRGB format the chosen format is sRGB; if it contains none,
the chosen format is the first entry of the list. -/
theorem chooseFormat_spec {Fmt : Type} (isSrgbTest : Fmt → Bool)
    (formats : List Fmt) (h : formats ≠ []) :
    ((∃ f ∈ formats, isSrgbTest f = true) →
      isSrgbTest (chooseFormat isSrgbTest formats h) = true) ∧
    ((∀ f ∈ formats, isSrgbTest f = false) →
      chooseFormat isSrgbTest formats h = formats.head h) := by
  constructor
  · rintro ⟨f, hf, hsrgb⟩
    unfold chooseFormat
    cases hfind : formats.find? isSrgbTest with
    | none =>
      exact absurd hsrgb (by simpa using List.find?_eq_none.mp hfind f hf)
    | some a =>
      simpa using List.find?_some hfind
  · intro hall
    unfold chooseFormat
    rw [List.find?_eq_none.mpr fun f hf => by simp [hall f hf]]
    rfl

/-- Witness for C4: on `[Rgba8Unorm, Bgra8UnormSrgb]` (one sRGB entry) the
chosen format is sRGB; on `[Rgba8Unorm, Rgba16Float]` (no sRGB entry) the
chosen format is the first entry, `Rgba8Unorm`. -/
theorem chooseFormat_spec_witness :
    TextureFormat.isSrgb
        (chooseFormat TextureFormat.isSrgb
          [TextureFormat.rgba8Unorm, TextureFormat.bgra8UnormSrgb]
          (by decide)) = true ∧
    chooseFormat TextureFormat.isSrgb
        [TextureFormat.rgba8Unorm, TextureFormat.rgba16Float] (by decide)
      = TextureFormat.rgba8Unorm := by
  constructor
  · exact (chooseFormat_spec TextureFormat.isSrgb _ _).1
      ⟨TextureFormat.bgra8UnormSrgb, by decide, by decide⟩
  · have h2 := (chooseFormat_spec TextureFormat.isSrgb
      [TextureFormat.rgba8Unorm, TextureFormat.rgba16Float] (by decide)).2
      (by decide)
    simpa using h2

/-- C7 counterexample: at the concrete shell state holding a window,
processing `RedrawRequested` emits no `present` step (nor any
build/layout/draw step) — the handler body is a single
`window.pre_present_notify()` call, so the claimed
build→layout→draw→present frame cycle does not run. -/
theorem redraw_runs_pipeline_counterexample :
    ¬ (Effect.present ∈
        handlerEffects
          (App.window_event { window := some {} } WEvent.redrawRequested)) := by
  decide

/-- C7 amended: when a window exists, processing `RedrawRequested` emits
exactly the pre-present notification and nothing else: no present occurs,
so (vacuously) every present is preceded by a pre-present notification. -/
theorem redraw_only_notifies (app : App) (w : Window)
    (hw : app.window = some w) :
    App.window_event app WEvent.redrawRequested
      = .ok (app, [Effect.prePresentNotify]) ∧
    Effect.present ∉
      handlerEffects (App.window_event app WEvent.redrawRequested) := by
  cases app with
  | mk win =>
    cases w
    simp only at hw
    subst hw
    decide

/-- Witness for C7 (amended): concrete shell state with a window. -/
theorem redraw_only_notifies_witness :
    App.window_event { window := some {} } WEvent.redrawRequested
      = .ok ({ window := some {} }, [Effect.prePresentNotify]) ∧
    Effect.present ∉
      handlerEffects
        (App.window_event { window := some {} } WEvent.redrawRequested) :=
  redraw_only_notifies { window := some {} } {} rfl

/-- C8 counterexample: at the concrete shell state holding a window,
processing `CloseRequested` does NOT release the window — the resulting
state still holds `some` window, never `none`; the handler only calls
`event_loop.exit()` and leaves `self` untouched. -/
theorem close_releases_window_counterexample :
    (App.window_event { window := some {} } WEvent.closeRequested).map
        (fun r => r.1.window)
      ≠ .ok none := by
  decide

/-- C8 amended: when a window exists, processing `CloseRequested` requests
event-loop exit (the transition to Exiting) and nothing else; the handler
retains the window unchanged (releasing it is left to the shell being
dropped after the loop ends), the `App` holds no surface context field at
all, and no present effect is emitted, so no frame is presented after
`CloseRequested` is processed. -/
theorem close_requested_exits (app : App) (w : Window)
    (hw : app.window = some w) :
    App.window_event app WEvent.closeRequested
      = .ok (app, [Effect.exitLoop]) ∧
    Effect.present ∉
      handlerEffects (App.window_event app WEvent.closeRequested) := by
  cases app with
  | mk win =>
    cases w
    simp only at hw
    subst hw
    decide

/-- Witness for C8 (amended): concrete shell state with a window. -/
theorem close_requested_exits_witness :
    App.window_event { window := some {} } WEvent.closeRequested
      = .ok ({ window := some {} }, [Effect.exitLoop]) ∧
    Effect.present ∉
      handlerEffects
        (App.window_event { window := some {} } WEvent.closeRequested) :=
  close_requested_exits { window := some {} } {} rfl

/-- C10: when no window exists, `App::window_event` panics with
"No window present" for every event kind — the `expect` runs before the
event is matched, so no event is ignored or handled gracefully. -/
theorem no_window_panics (event : WEvent) :
    App.window_event { window := none } event
      = .error "No window present" := by
  cases event <;> rfl

/-- C9: all six vertices of `Vertex::quad` carry the hard-coded color
`(0, 0, 0, 1)` (opaque black) and uv `(1, 1)`; the constructor takes no
color parameter, so no caller-chosen color can appear. -/
theorem quad_uniform_color_uv {α : Type} [Add α] [Zero α] [One α]
    (width height x y : α) :
    (Vertex.quad width height x y).map Vertex.color
      = List.replicate 6 (0, 0, 0, 1) ∧
    (Vertex.quad width height x y).map Vertex.uv
      = List.replicate 6 (1, 1) := by
  exact ⟨rfl, rfl⟩

end Ruby
